import Mathlib

/-!
Shallow embedding of the sandboxed code-execution subsystem of bioviz
(backend/app/services/code_execution_service.py), together with proofs
settling the specification claims about it.

The embedding models:
  * the result record the generated wrapper program writes (`ResultRecord`),
  * the wrapper program's control flow (`wrapperRun`, from `_prepare_code`'s
    generated text, lines 118-245 of the source),
  * the result harvester (`parse_results`, from `_parse_results`),
  * the subprocess runner (`execute_in_subprocess`, from
    `_execute_in_subprocess`), and
  * the orchestrator (`execute_code`).

Host-level nondeterminism (what the OS and the child process do) is an
explicit environment value (`SubprocBehavior`, `ExecEnv`, `WrapperEnv`);
the Lean functions are the deterministic control flow of the Python code
over that environment.
-/

namespace Bioviz

/-- Payload of a visualization descriptor produced by the wrapper:
matplotlib figures become base64 raster images with pixel dimensions,
plotly figures become declarative chart specifications. -/
inductive VisData where
  | raster (src : String) (width : Nat) (height : Nat)
  | vector (spec : String)
  deriving Repr, DecidableEq

/-- One entry of the wrapper's `result["visualizations"]` list. -/
structure Visualization where
  type : String
  format : String
  data : VisData
  deriving Repr, DecidableEq

/-- One row of a dataframe, as `to_dict(orient="records")` renders it:
column-name / value pairs (values abstracted to strings). -/
def Row := List (String × String)
deriving instance Repr, DecidableEq for Row

/-- One entry of the wrapper's `result["tables"]` list. -/
structure Table where
  name : String
  columns : List String
  data : List Row
  total_rows : Nat
  deriving Repr, DecidableEq

/-- The record the wrapper program serializes to `result.json`: the wrapper
always writes all four keys. -/
structure ResultRecord where
  output : String
  error : Option String
  visualizations : List Visualization
  tables : List Table
  deriving Repr, DecidableEq

/-- A result record as found on disk by the harvester, which must cope with
arbitrary files: each key may be absent, or present with a possibly-null
value.  The outer `Option` is key presence, the inner one is null vs value
(for `output`/`error`, Python's `dict.get` collapses absent and null, so a
single `Option` suffices). -/
structure StoredRecord where
  output : Option String
  error : Option String
  visualizations : Option (Option (List Visualization))
  tables : Option (Option (List Table))
  deriving Repr, DecidableEq

/-- State of the fixed result file (`result.json` in the workspace) when the
harvester reads it: absent, present but failing to parse (with the parse
exception's message), or parsed into a record. -/
inductive ResultFileState where
  | absent
  | unparsable (msg : String)
  | parsed (r : StoredRecord)
  deriving Repr, DecidableEq

/-- Python `d.get(key, default)` on a key whose value may be null: an absent
key yields the default, a present key yields its stored value (even null). -/
def pyGetD {α : Type} (stored : Option (Option α)) (dflt : α) : Option α :=
  match stored with
  | none => some dflt
  | some v => v

/-- Embedding of `CodeExecutionService._parse_results` (source lines
305-327): missing file and unparsable file map to all-null tuples with the
fixed or the exception message; a parsed record's fields pass through with
`visualizations`/`tables` defaulting to `[]` when the key is missing. -/
def parse_results (fs : ResultFileState) :
    Option String × Option String × Option (List Visualization) × Option (List Table) :=
  match fs with
  | .absent => (none, some "Execution failed to produce results", none, none)
  | .unparsable msg => (none, some msg, none, none)
  | .parsed r => (r.output, r.error, pyGetD r.visualizations [], pyGetD r.tables [])

/-! ### The generated wrapper program

`_prepare_code` emits a Python program whose control flow we embed here.
The program: loads the dataset (format chosen by the dataset path's
extension), redirects stdout/stderr to buffers, runs the user code under a
caught-exception boundary, harvests matplotlib figures, plotly figures and
dataframe locals, and writes the result record; a failure anywhere outside
the user-code boundary is caught by the outer handler, which writes a
setup-failure record. -/

/-- An open matplotlib figure at the end of user-code execution:
its PNG bytes (base64-encoded) and pixel dimensions
(`figwidth * dpi`, `figheight * dpi`). -/
structure Figure where
  png_b64 : String
  width : Nat
  height : Nat
  deriving Repr, DecidableEq

/-- A plotly figure object held in a local variable, abstracted to its
`to_dict()` chart specification. -/
structure PlotlyFigure where
  spec : String
  deriving Repr, DecidableEq

/-- A `pandas.DataFrame` local variable at the end of user-code execution. -/
structure DataFrame where
  name : String
  columns : List String
  rows : List Row
  deriving Repr, DecidableEq

/-- Behaviour of the embedded user code during one wrapper run:
what it wrote to the redirected stdout/stderr buffers, whether it raised
(with the `traceback.format_exc()` text), and which figures and dataframe
locals exist when it finishes or faults. -/
structure UserCode where
  printed : String
  err_printed : String
  raises : Option String
  figures : List Figure
  plotly_figures : List PlotlyFigure
  dataframes : List DataFrame
  deriving Repr, DecidableEq

/-- Outcome of the wrapper's dataset-loading step. -/
inductive DatasetLoad where
  | ok
  | fails (msg : String)
  deriving Repr, DecidableEq

/-- Python's `str.endswith`: the last `len(post)` characters equal `post`
(a string shorter than the suffix never matches). -/
def strEndsWith (s post : String) : Bool :=
  post.data == s.data.drop (s.data.length - post.data.length)

/-- Dataset loading, wrapper lines: `.csv` → `pd.read_csv`, `.xlsx` →
`pd.read_excel`, anything else raises
`ValueError(f"Unsupported file format: {dataset_path}")`; a supported
extension may still fail to read (`read_fails` carries `str(e)`). -/
def datasetLoadOutcome (dataset_path : String) (read_fails : Option String) : DatasetLoad :=
  if strEndsWith dataset_path ".csv" || strEndsWith dataset_path ".xlsx" then
    match read_fails with
    | some msg => .fails msg
    | none => .ok
  else
    .fails ("Unsupported file format: " ++ dataset_path)

/-- Environment of one wrapper run: the dataset path baked into the
generated program, whether reading the dataset fails, the user code's
behaviour, and whether serializing the harvested record raises (e.g. a
non-JSON-serializable value in a harvested table). -/
structure WrapperEnv where
  dataset_path : String
  read_fails : Option String
  user : UserCode
  serialize_fails : Option String
  deriving Repr, DecidableEq

/-- Harvesting of open matplotlib figures (wrapper: save to PNG, re-read,
base64-embed as a data URI with pixel dimensions). -/
def harvestMatplotlib (figs : List Figure) : List Visualization :=
  figs.map fun f =>
    { type := "matplotlib", format := "png",
      data := .raster ("data:image/png;base64," ++ f.png_b64) f.width f.height }

/-- Harvesting of plotly figure locals (wrapper: `to_dict()` as JSON). -/
def harvestPlotly (figs : List PlotlyFigure) : List Visualization :=
  figs.map fun f => { type := "plotly", format := "json", data := .vector f.spec }

/-- Harvesting of dataframe locals: every dataframe other than the reserved
`df` with at least one row contributes its columns, first 100 rows and
total row count. -/
def harvestTables (dfs : List DataFrame) : List Table :=
  (dfs.filter fun d => d.name != "df" && d.rows.length != 0).map fun d =>
    { name := d.name, columns := d.columns, data := d.rows.take 100,
      total_rows := d.rows.length }

/-- The record written by the wrapper's outer exception handler when
anything outside the user-code boundary raises. -/
def setupFailureRecord (msg : String) : ResultRecord :=
  { output := "", error := some ("Error setting up execution environment: " ++ msg),
    visualizations := [], tables := [] }

/-- The inner try/except around the user code: on a raise, the trace is
printed to the (still redirected) stderr buffer and the harvesting steps
are skipped, leaving `visualizations`/`tables` empty; on normal completion
the figures and dataframe locals are harvested. Returns the final
stdout-buffer text, stderr-buffer text, visualizations and tables. -/
def userPhase (u : UserCode) : String × String × List Visualization × List Table :=
  match u.raises with
  | some trace =>
      (u.printed, u.err_printed ++ "Error executing code: " ++ trace ++ "\n", [], [])
  | none =>
      (u.printed, u.err_printed,
       harvestMatplotlib u.figures ++ harvestPlotly u.plotly_figures,
       harvestTables u.dataframes)

/-- One run of the generated wrapper program: the final content of the
fixed result file (`none` would mean the program exited without writing
it — no control-flow path does). Dataset-load failure and a failure while
serializing the harvested record both fall through to the outer handler,
which writes the setup-failure record; otherwise the `finally` block
stores the buffers into the record (`error` only when the stderr buffer is
non-empty, matching Python string truthiness) and writes it. -/
def wrapperRun (env : WrapperEnv) : Option ResultRecord :=
  match datasetLoadOutcome env.dataset_path env.read_fails with
  | .fails msg => some (setupFailureRecord msg)
  | .ok =>
      let phase := userPhase env.user
      let record : ResultRecord :=
        { output := phase.1,
          error := if phase.2.1 == "" then none else some phase.2.1,
          visualizations := phase.2.2.1,
          tables := phase.2.2.2 }
      match env.serialize_fails with
      | some msg => some (setupFailureRecord msg)
      | none => some record

/-! ### The subprocess runner

`_execute_in_subprocess` launches the wrapper program in a child process,
awaits completion under `settings.sandbox_timeout`, and afterwards samples
the child's resident memory through psutil.  The runner returns a plain
dict `{output, error}`; whether it killed the child is tracked as a
separate effect. -/

/-- Sandbox configuration (`settings.sandbox_timeout`,
`settings.max_memory` from app/core/config.py). -/
structure Config where
  sandbox_timeout : Nat
  max_memory : Nat
  deriving Repr, DecidableEq

/-- The defaults from `Settings`: 30 seconds, 4 GiB. -/
def defaultConfig : Config :=
  { sandbox_timeout := 30, max_memory := 4 * 1024 * 1024 * 1024 }

/-- The timeout error message the runner builds
(`f"Execution timed out after {self.timeout} seconds"`;
`sandbox_timeout` is an `int`, so it renders without a decimal point). -/
def timeoutMessage (timeout_s : Nat) : String :=
  "Execution timed out after " ++ toString timeout_s ++ " seconds"

/-- The memory error message the runner builds
(`f"Execution exceeded memory limit of {self.max_memory / (1024 * 1024)} MB"`;
Python's true division yields a float, rendered here for limits that are
whole multiples of one MiB — the default 4 GiB gives "4096.0 MB"). -/
def memoryMessage (max_memory : Nat) : String :=
  "Execution exceeded memory limit of " ++ toString (max_memory / (1024 * 1024)) ++ ".0 MB"

/-- What psutil observes when the runner samples the child after
`communicate()` has returned: the `psutil.Process(pid)` lookup may raise
`NoSuchProcess` (child already reaped), `memory_info()` may raise
`NoSuchProcess`, or a resident-set size is read. -/
inductive ProcSample where
  | gone_at_lookup (msg : String)
  | gone_at_meminfo
  | rss (bytes : Nat)
  deriving Repr, DecidableEq

/-- Host behaviour of one subprocess run: whether spawning raises, whether
the child finishes within the configured timeout, its captured
stdout/stderr, the peak resident memory it ever reached while running
(a ghost observation — the code never reads it), and what the
post-completion psutil sample sees. -/
structure SubprocBehavior where
  spawn_fails : Option String
  completes_in_time : Bool
  stdout : String
  stderr : String
  peak_rss : Nat
  sample : ProcSample
  deriving Repr, DecidableEq

/-- The dict `_execute_in_subprocess` returns. -/
structure RunnerReturn where
  output : String
  error : Option String
  deriving Repr, DecidableEq

/-- The runner's return value together with whether it killed the child. -/
structure RunnerOutcome where
  ret : RunnerReturn
  killed : Bool
  deriving Repr, DecidableEq

/-- Embedding of `CodeExecutionService._execute_in_subprocess` (source
lines 256-303).  A spawn failure is caught by the runner's outer handler
and returned as `{output: "", error: str(e)}`.  On timeout the child is
killed and the timeout message returned with empty output.  Otherwise the
memory sample runs: a `NoSuchProcess` from the `psutil.Process` lookup is
caught only by the outer handler (error return, no kill); a
`NoSuchProcess` from `memory_info()` is swallowed by the inner handler
(normal return); an observed rss above `max_memory` kills the child and
returns the memory message.  The normal return carries the decoded stdout,
and stderr only when non-empty (`if stderr` truthiness). -/
def execute_in_subprocess (cfg : Config) (b : SubprocBehavior) : RunnerOutcome :=
  match b.spawn_fails with
  | some msg => { ret := { output := "", error := some msg }, killed := false }
  | none =>
      if !b.completes_in_time then
        { ret := { output := "", error := some (timeoutMessage cfg.sandbox_timeout) },
          killed := true }
      else
        match b.sample with
        | .gone_at_lookup msg =>
            { ret := { output := "", error := some msg }, killed := false }
        | .gone_at_meminfo =>
            { ret := { output := b.stdout,
                       error := if b.stderr == "" then none else some b.stderr },
              killed := false }
        | .rss n =>
            if n > cfg.max_memory then
              { ret := { output := "", error := some (memoryMessage cfg.max_memory) },
                killed := true }
            else
              { ret := { output := b.stdout,
                         error := if b.stderr == "" then none else some b.stderr },
                killed := false }

/-! ### The orchestrator -/

/-- The caller-facing result (`CodeExecutionResult` from app/schemas/llm.py);
`execution_time` is abstracted to a tick count. -/
structure CodeExecutionResult where
  output : Option String
  error : Option String
  visualizations : Option (List Visualization)
  tables : Option (List Table)
  execution_time : Nat
  deriving Repr, DecidableEq

/-- Filesystem and process effects of one `execute_code` invocation. -/
structure Effects where
  workspace_created : Option String
  process_spawned : Bool
  process_killed : Bool
  workspace_removed : Bool
  deriving Repr, DecidableEq

/-- Effects of an invocation that touched nothing. -/
def noEffects : Effects :=
  { workspace_created := none, process_spawned := false,
    process_killed := false, workspace_removed := false }

/-- Environment of one `execute_code` invocation: the clock and the code
object's identity (naming the workspace), which fallible host steps raise
(`os.makedirs` for the workspace, `_prepare_code`, writing `code.py`,
`shutil.rmtree`), the subprocess behaviour, the state of `result.json`
when the harvester reads it, and the elapsed time. -/
structure ExecEnv where
  now : Nat
  code_id : Nat
  makedirs_fails : Option String
  prepare_fails : Option String
  write_fails : Option String
  subproc : SubprocBehavior
  file_state : ResultFileState
  rmtree_fails : Option String
  elapsed : Nat
  deriving Repr, DecidableEq

/-- The workspace directory name,
`f"exec_{int(time.time())}_{id(code) % 10000}"` (source line 63):
second-resolution timestamp plus the CPython object id of the code string
modulo 10000. -/
def executionId (now code_id : Nat) : String :=
  "exec_" ++ toString now ++ "_" ++ toString (code_id % 10000)

/-- The result built by `execute_code`'s `except` branch:
`output=None, error=str(e)`, null visualizations and tables. -/
def caughtResult (msg : String) (elapsed : Nat) : CodeExecutionResult :=
  { output := none, error := some msg, visualizations := none, tables := none,
    execution_time := elapsed }

/-- Embedding of `CodeExecutionService.execute_code` (source lines 42-108),
returning the value handed to the caller (`Except.error` when an exception
propagates out of `execute_code`) together with the invocation's effects.

Control flow: an unsupported `execution_type` returns immediately, before
any workspace work.  The workspace `os.makedirs` call sits before the
`try` block, so its failure propagates to the caller (and the `finally`
cleanup never runs).  Inside the `try`, failures of `_prepare_code` or of
writing `code.py` are caught and normalized into a `caughtResult`.  The
runner's return value is bound to a local (`result`) that is never read:
the returned fields come from `_parse_results` alone.  The `finally` block
always attempts `shutil.rmtree`, swallowing its failure. -/
def execute_code (cfg : Config) (env : ExecEnv) (execution_type : String) :
    Except String CodeExecutionResult × Effects :=
  if execution_type != "python" then
    (Except.ok { output := some "Unsupported execution type. Only Python is supported.",
                 error := some "UnsupportedExecutionType",
                 visualizations := none, tables := none, execution_time := 0 },
     noEffects)
  else
    let wsName := executionId env.now env.code_id
    match env.makedirs_fails with
    | some msg => (Except.error msg, noEffects)
    | none =>
        let removed := env.rmtree_fails.isNone
        match env.prepare_fails with
        | some msg =>
            (Except.ok (caughtResult msg env.elapsed),
             { workspace_created := some wsName, process_spawned := false,
               process_killed := false, workspace_removed := removed })
        | none =>
            match env.write_fails with
            | some msg =>
                (Except.ok (caughtResult msg env.elapsed),
                 { workspace_created := some wsName, process_spawned := false,
                   process_killed := false, workspace_removed := removed })
            | none =>
                let runner := execute_in_subprocess cfg env.subproc
                let parsed := parse_results env.file_state
                (Except.ok { output := parsed.1, error := parsed.2.1,
                             visualizations := parsed.2.2.1, tables := parsed.2.2.2,
                             execution_time := env.elapsed },
                 { workspace_created := some wsName,
                   process_spawned := env.subproc.spawn_fails.isNone,
                   process_killed := runner.killed,
                   workspace_removed := removed })

/-- The sandbox root's set of immediate children after an invocation with
the given effects, starting from the set `before`: `os.makedirs(...,
exist_ok=True)` inserts the workspace name (succeeding even if it already
exists), a successful `shutil.rmtree` removes it. -/
def childrenAfter (before : Finset String) (eff : Effects) : Finset String :=
  match eff.workspace_created with
  | none => before
  | some name => if eff.workspace_removed then (insert name before).erase name else insert name before

/-! ### Decimal-representation facts

`executionId` embeds two numbers into a string; to settle the
workspace-uniqueness claim we prove exactly when two such strings
coincide, which needs that `Nat.repr` is injective and produces only
digit characters. -/

theorem digitChar_toNat (d : Nat) (h : d < 10) : (Nat.digitChar d).toNat = d + 48 := by
  interval_cases d <;> decide

theorem digitChar_isDigit (d : Nat) (h : d < 10) : (Nat.digitChar d).isDigit = true := by
  interval_cases d <;> decide

theorem toDigitsCore_acc (f : Nat) : ∀ (n : Nat) (ds : List Char),
    Nat.toDigitsCore 10 f n ds = Nat.toDigitsCore 10 f n [] ++ ds := by
  induction f with
  | zero => intro n ds; simp [Nat.toDigitsCore]
  | succ g ih =>
      intro n ds
      simp only [Nat.toDigitsCore]
      by_cases h : n / 10 = 0
      · simp [h]
      · simp only [h, if_false]
        rw [ih (n / 10) (Nat.digitChar (n % 10) :: ds), ih (n / 10) [Nat.digitChar (n % 10)]]
        simp

theorem toDigitsCore_fuel (n : Nat) : ∀ (f g : Nat), n < f → n < g →
    Nat.toDigitsCore 10 f n [] = Nat.toDigitsCore 10 g n [] := by
  induction n using Nat.strong_induction_on with
  | _ n ih =>
      intro f g hf hg
      cases f with
      | zero => omega
      | succ f =>
          cases g with
          | zero => omega
          | succ g =>
              simp only [Nat.toDigitsCore]
              by_cases h : n / 10 = 0
              · simp [h]
              · simp only [h, if_false]
                rw [toDigitsCore_acc f, toDigitsCore_acc g,
                  ih (n / 10) (by omega) f g (by omega) (by omega)]

theorem toDigits_base (n : Nat) (h : n / 10 = 0) :
    Nat.toDigits 10 n = [Nat.digitChar (n % 10)] := by
  simp [Nat.toDigits, Nat.toDigitsCore, h]

theorem toDigits_step (n : Nat) (h : n / 10 ≠ 0) :
    Nat.toDigits 10 n = Nat.toDigits 10 (n / 10) ++ [Nat.digitChar (n % 10)] := by
  show Nat.toDigitsCore 10 (n + 1) n [] = _
  simp only [Nat.toDigitsCore, h, if_false]
  rw [toDigitsCore_acc]
  unfold Nat.toDigits
  rw [toDigitsCore_fuel (n / 10) n (n / 10 + 1) (by omega) (by omega)]

/-- Value of a list of decimal digit characters. -/
def ofDigits10 (l : List Char) : Nat :=
  l.foldl (fun a c => 10 * a + (c.toNat - 48)) 0

theorem ofDigits10_append_singleton (l : List Char) (c : Char) :
    ofDigits10 (l ++ [c]) = 10 * ofDigits10 l + (c.toNat - 48) := by
  simp [ofDigits10, List.foldl_append]

theorem ofDigits10_toDigits (n : Nat) : ofDigits10 (Nat.toDigits 10 n) = n := by
  induction n using Nat.strong_induction_on with
  | _ n ih =>
      by_cases h : n / 10 = 0
      · rw [toDigits_base n h]
        have hd := digitChar_toNat (n % 10) (by omega)
        simp [ofDigits10, hd]
        omega
      · rw [toDigits_step n h, ofDigits10_append_singleton,
          ih (n / 10) (by omega), digitChar_toNat (n % 10) (by omega)]
        omega

theorem toDigits_inj (a b : Nat) (h : Nat.toDigits 10 a = Nat.toDigits 10 b) : a = b := by
  have := congrArg ofDigits10 h
  rwa [ofDigits10_toDigits, ofDigits10_toDigits] at this

theorem toDigits_mem_isDigit (n : Nat) :
    ∀ c ∈ Nat.toDigits 10 n, c.isDigit = true := by
  induction n using Nat.strong_induction_on with
  | _ n ih =>
      by_cases h : n / 10 = 0
      · rw [toDigits_base n h]
        intro c hc
        simp at hc
        subst hc
        exact digitChar_isDigit _ (by omega)
      · rw [toDigits_step n h]
        intro c hc
        rcases List.mem_append.mp hc with h1 | h1
        · exact ih (n / 10) (by omega) c h1
        · simp at h1
          subst h1
          exact digitChar_isDigit _ (by omega)

theorem isDigit_ne_underscore (c : Char) (h : c.isDigit = true) : c ≠ '_' := by
  intro e
  rw [e] at h
  exact absurd h (by decide)

theorem append_underscore_inj : ∀ (t₁ t₂ r₁ r₂ : List Char),
    (∀ c ∈ t₁, c ≠ '_') → (∀ c ∈ t₂, c ≠ '_') →
    t₁ ++ '_' :: r₁ = t₂ ++ '_' :: r₂ → t₁ = t₂ ∧ r₁ = r₂ := by
  intro t₁
  induction t₁ with
  | nil =>
      intro t₂ r₁ r₂ h1 h2 heq
      cases t₂ with
      | nil => simpa using heq
      | cons c t =>
          simp at heq
          exact absurd heq.1.symm (h2 c (by simp))
  | cons c t ih =>
      intro t₂ r₁ r₂ h1 h2 heq
      cases t₂ with
      | nil =>
          simp at heq
          exact absurd heq.1 (h1 c (by simp))
      | cons d t' =>
          simp at heq
          obtain ⟨rfl, heq2⟩ := heq
          obtain ⟨h3, h4⟩ := ih t' r₁ r₂ (fun x hx => h1 x (by simp [hx]))
            (fun x hx => h2 x (by simp [hx])) heq2
          exact ⟨by rw [h3], h4⟩

theorem asString_data (l : List Char) : l.asString.data = l := rfl

theorem executionId_data (t c : Nat) :
    (executionId t c).data =
      'e' :: 'x' :: 'e' :: 'c' :: '_' ::
        (Nat.toDigits 10 t ++ '_' :: Nat.toDigits 10 (c % 10000)) := by
  show ("exec_" ++ Nat.repr t ++ "_" ++ Nat.repr (c % 10000)).data = _
  simp [Nat.repr, String.data_append, asString_data]

theorem executionId_inj (t c t' c' : Nat)
    (h : executionId t c = executionId t' c') : t = t' ∧ c % 10000 = c' % 10000 := by
  have hd := congrArg String.data h
  rw [executionId_data, executionId_data] at hd
  simp only [List.cons.injEq, true_and] at hd
  obtain ⟨h1, h2⟩ := append_underscore_inj _ _ _ _
    (fun x hx => isDigit_ne_underscore x (toDigits_mem_isDigit t x hx))
    (fun x hx => isDigit_ne_underscore x (toDigits_mem_isDigit t' x hx)) hd
  exact ⟨toDigits_inj _ _ h1, toDigits_inj _ _ h2⟩

/-! ### Sample environments for concrete instantiations -/

/-- A benign subprocess behaviour: spawn succeeds, the child finishes in
time, and is already gone when `memory_info()` is called. -/
def okSubproc : SubprocBehavior :=
  { spawn_fails := none, completes_in_time := true, stdout := "hi\n", stderr := "",
    peak_rss := 1024, sample := .gone_at_meminfo }

/-- A benign orchestrator environment: no host step fails and the wrapper
left a well-formed result file. -/
def okEnv : ExecEnv :=
  { now := 1700000000, code_id := 5, makedirs_fails := none, prepare_fails := none,
    write_fails := none, subproc := okSubproc,
    file_state := .parsed { output := some "hi\n", error := none,
                            visualizations := some (some []), tables := some (some []) },
    rmtree_fails := none, elapsed := 1 }

/-! ### Claims -/

/-- Claim C7: for every kind other than "python", `execute_code` returns
immediately with `error = "UnsupportedExecutionType"`, creating no
workspace directory under the sandbox root and spawning no subprocess. -/
theorem C7_unsupported_kind_rejected (cfg : Config) (env : ExecEnv) (k : String)
    (h : k ≠ "python") :
    (execute_code cfg env k).1 = Except.ok
      { output := some "Unsupported execution type. Only Python is supported.",
        error := some "UnsupportedExecutionType",
        visualizations := none, tables := none, execution_time := 0 }
    ∧ (execute_code cfg env k).2 = noEffects := by
  constructor <;> simp [execute_code, h]

/-- Witness for C7 at the spec's own example kind "ruby". -/
theorem C7_unsupported_kind_rejected_witness :
    (execute_code defaultConfig okEnv "ruby").1 = Except.ok
      { output := some "Unsupported execution type. Only Python is supported.",
        error := some "UnsupportedExecutionType",
        visualizations := none, tables := none, execution_time := 0 }
    ∧ (execute_code defaultConfig okEnv "ruby").2 = noEffects :=
  C7_unsupported_kind_rejected defaultConfig okEnv "ruby" (by decide)

/-- Claim C5: the harvester maps an absent result file to all-null fields
with the fixed message, an unparsable one to all-null fields with the
parse-failure message, and a parsed record's fields pass through unchanged
with absent visualizations/tables defaulting to empty lists. -/
theorem C5_harvest_cases :
    parse_results .absent = (none, some "Execution failed to produce results", none, none)
    ∧ (∀ msg, parse_results (.unparsable msg) = (none, some msg, none, none))
    ∧ (∀ r : StoredRecord,
        (parse_results (.parsed r)).1 = r.output
        ∧ (parse_results (.parsed r)).2.1 = r.error
        ∧ (r.visualizations = none → (parse_results (.parsed r)).2.2.1 = some [])
        ∧ (∀ v, r.visualizations = some v → (parse_results (.parsed r)).2.2.1 = v)
        ∧ (r.tables = none → (parse_results (.parsed r)).2.2.2 = some [])
        ∧ (∀ tb, r.tables = some tb → (parse_results (.parsed r)).2.2.2 = tb)) := by
  refine ⟨rfl, fun msg => rfl, fun r => ⟨rfl, rfl, ?_, ?_, ?_, ?_⟩⟩
  · intro h; simp [parse_results, pyGetD, h]
  · intro v h; simp [parse_results, pyGetD, h]
  · intro h; simp [parse_results, pyGetD, h]
  · intro tb h; simp [parse_results, pyGetD, h]

/-- A stored record with the visualizations key absent and the tables key
present with an empty list. -/
def sampleStored : StoredRecord :=
  { output := some "x", error := none, visualizations := none, tables := some (some []) }

/-- Witness for C5's inner hypotheses at a concrete stored record with the
visualizations key absent and the tables key present. -/
theorem C5_harvest_cases_witness :
    (parse_results (.parsed sampleStored)).2.2.1 = some []
    ∧ (parse_results (.parsed sampleStored)).2.2.2 = some [] :=
  ⟨(C5_harvest_cases.2.2 _).2.2.1 rfl, (C5_harvest_cases.2.2 _).2.2.2.2.2 _ rfl⟩

/-- Claim C10: for every execution that reaches the subprocess step, the
returned result's output/error/visualizations/tables come from the result
file via the harvester alone; the runner's return value (captured
stdout/stderr, timeout or memory messages) is never incorporated — the
result is invariant under arbitrary changes of the subprocess behaviour. -/
theorem C10_runner_return_discarded (cfg : Config) (env : ExecEnv)
    (h1 : env.makedirs_fails = none) (h2 : env.prepare_fails = none)
    (h3 : env.write_fails = none) :
    (execute_code cfg env "python").1 = Except.ok
      { output := (parse_results env.file_state).1,
        error := (parse_results env.file_state).2.1,
        visualizations := (parse_results env.file_state).2.2.1,
        tables := (parse_results env.file_state).2.2.2,
        execution_time := env.elapsed }
    ∧ ∀ b : SubprocBehavior,
        (execute_code cfg { env with subproc := b } "python").1 =
          (execute_code cfg env "python").1 := by
  constructor
  · simp [execute_code, h1, h2, h3]
  · intro b
    simp [execute_code, h1, h2, h3]

/-- Witness for C10: a benign environment; the result equals the parsed
record even though the runner returned the captured stdout. -/
theorem C10_runner_return_discarded_witness :
    (execute_code defaultConfig okEnv "python").1 = Except.ok
      { output := some "hi\n", error := none, visualizations := some [],
        tables := some [], execution_time := 1 } := by
  have h := (C10_runner_return_discarded defaultConfig okEnv rfl rfl rfl).1
  simpa [okEnv, parse_results, pyGetD] using h

/-- Claim C4: every control-flow path through the generated wrapper
program writes the result record (`wrapperRun` never yields `none`), and
when dataset loading fails the record written is `output=""`, an error
describing the setup failure, and empty visualizations and tables. -/
theorem C4_wrapper_always_writes (env : WrapperEnv) :
    (wrapperRun env).isSome = true
    ∧ (∀ msg, datasetLoadOutcome env.dataset_path env.read_fails = .fails msg →
        wrapperRun env = some
          { output := "",
            error := some ("Error setting up execution environment: " ++ msg),
            visualizations := [], tables := [] }) := by
  constructor
  · unfold wrapperRun
    cases h : datasetLoadOutcome env.dataset_path env.read_fails
    · cases hs : env.serialize_fails <;> simp
    · simp
  · intro msg h
    simp [wrapperRun, h, setupFailureRecord]

/-- Witness for C4: a dataset path with an unsupported extension makes
loading fail, yet the wrapper still writes the setup-failure record. -/
theorem C4_wrapper_always_writes_witness :
    wrapperRun { dataset_path := "data.txt", read_fails := none,
                 user := { printed := "", err_printed := "", raises := none,
                           figures := [], plotly_figures := [], dataframes := [] },
                 serialize_fails := none } = some
      { output := "",
        error := some "Error setting up execution environment: Unsupported file format: data.txt",
        visualizations := [], tables := [] } :=
  (C4_wrapper_always_writes _).2 "Unsupported file format: data.txt" (by decide)

/-- An environment whose workspace `os.makedirs` call raises. -/
def envMakedirsFails : ExecEnv := { okEnv with makedirs_fails := some "Permission denied" }

/-- Claim C2 counterexample: an exception in workspace creation is NOT
normalized into a returned result — `os.makedirs` for the workspace sits
before the `try` block of `execute_code`, so its failure propagates to
the caller as a raised fault. -/
theorem C2_counterexample :
    (execute_code defaultConfig envMakedirsFails "python").1 =
      Except.error "Permission denied" := rfl

/-- Claim C2 amended: provided workspace creation itself succeeds,
`execute_code` never propagates an exception: it returns a result for
every kind.  Failures in wrapper generation or in writing the code file
are normalized into a result with `error = str(exception)` and null
output.  A harvest-time parse failure is normalized into
`error = str(parse exception)` with null output.  A subprocess-launch
failure is caught inside the runner, which returns
`{output: "", error: str(exception)}` — but `execute_code` discards that
dict, so the returned result is built from the result file: with no
result file its error is "Execution failed to produce results", not the
launch exception's message.  (An exception in the workspace
`os.makedirs`, which precedes the `try` block, still propagates.) -/
theorem C2_no_raise_after_workspace_creation (cfg : Config) (env : ExecEnv) (k : String)
    (h : env.makedirs_fails = none) :
    (∃ r, (execute_code cfg env k).1 = Except.ok r)
    ∧ (∀ m, env.prepare_fails = some m →
        (execute_code cfg env "python").1 = Except.ok (caughtResult m env.elapsed))
    ∧ (∀ m, env.prepare_fails = none → env.write_fails = some m →
        (execute_code cfg env "python").1 = Except.ok (caughtResult m env.elapsed))
    ∧ (∀ m, env.prepare_fails = none → env.write_fails = none →
        env.file_state = .unparsable m →
        (execute_code cfg env "python").1 = Except.ok
          { output := none, error := some m, visualizations := none, tables := none,
            execution_time := env.elapsed })
    ∧ (∀ m, env.prepare_fails = none → env.write_fails = none →
        env.subproc.spawn_fails = some m →
        (execute_in_subprocess cfg env.subproc).ret = { output := "", error := some m }
        ∧ (execute_code cfg env "python").1 = Except.ok
            { output := (parse_results env.file_state).1,
              error := (parse_results env.file_state).2.1,
              visualizations := (parse_results env.file_state).2.2.1,
              tables := (parse_results env.file_state).2.2.2,
              execution_time := env.elapsed }
        ∧ (env.file_state = .absent →
            (execute_code cfg env "python").1 = Except.ok
              { output := none, error := some "Execution failed to produce results",
                visualizations := none, tables := none, execution_time := env.elapsed })) := by
  refine ⟨?_, ?_, ?_, ?_, ?_⟩
  · by_cases hk : k = "python"
    · subst hk
      cases hp : env.prepare_fails with
      | some m =>
          refine ⟨caughtResult m env.elapsed, ?_⟩
          simp [execute_code, h, hp]
      | none =>
          cases hw : env.write_fails with
          | some m =>
              refine ⟨caughtResult m env.elapsed, ?_⟩
              simp [execute_code, h, hp, hw]
          | none =>
              refine ⟨{ output := (parse_results env.file_state).1,
                        error := (parse_results env.file_state).2.1,
                        visualizations := (parse_results env.file_state).2.2.1,
                        tables := (parse_results env.file_state).2.2.2,
                        execution_time := env.elapsed }, ?_⟩
              simp [execute_code, h, hp, hw]
    · refine ⟨{ output := some "Unsupported execution type. Only Python is supported.",
                error := some "UnsupportedExecutionType",
                visualizations := none, tables := none, execution_time := 0 }, ?_⟩
      simp [execute_code, hk]
  · intro m hp
    simp [execute_code, h, hp]
  · intro m hp hw
    simp [execute_code, h, hp, hw]
  · intro m hp hw hf
    simp [execute_code, h, hp, hw, hf, parse_results]
  · intro m hp hw hs
    refine ⟨?_, ?_, ?_⟩
    · simp [execute_in_subprocess, hs]
    · simp [execute_code, h, hp, hw]
    · intro hf
      simp [execute_code, h, hp, hw, hf, parse_results]

/-- An invocation whose `asyncio.create_subprocess_exec` call raises; the
wrapper never ran, so no result file exists. -/
def envSpawnFails : ExecEnv :=
  { okEnv with
      subproc := { okSubproc with spawn_fails := some "FileNotFoundError: python" },
      file_state := .absent }

/-- Witness for C2's amended claim: a failing `_prepare_code` step is
normalized into a returned result, and a subprocess-launch failure still
yields a returned (not raised) result whose error is the harvester's
missing-file message rather than the launch exception's. -/
theorem C2_no_raise_after_workspace_creation_witness :
    (execute_code defaultConfig { okEnv with prepare_fails := some "boom" } "python").1 =
      Except.ok (caughtResult "boom" 1)
    ∧ (execute_code defaultConfig envSpawnFails "python").1 = Except.ok
        { output := none, error := some "Execution failed to produce results",
          visualizations := none, tables := none, execution_time := 1 } :=
  ⟨(C2_no_raise_after_workspace_creation defaultConfig
      { okEnv with prepare_fails := some "boom" } "python" rfl).2.1 "boom" rfl,
   ((C2_no_raise_after_workspace_creation defaultConfig envSpawnFails "python" rfl).2.2.2.2
      "FileNotFoundError: python" rfl rfl rfl).2.2 rfl⟩

/-- The spec example's two-second timeout configuration. -/
def cfgTimeout2 : Config := { sandbox_timeout := 2, max_memory := 4 * 1024 * 1024 * 1024 }

/-- A child that never finishes within the timeout (infinite-loop user
code); killed before the wrapper could write the result file. -/
def envTimedOut : ExecEnv :=
  { okEnv with
      subproc := { spawn_fails := none, completes_in_time := false, stdout := "",
                   stderr := "", peak_rss := 1024, sample := .gone_at_meminfo },
      file_state := .absent }

/-- Claim C1 counterexample: with `timeoutSeconds = 2` and an execution
that times out, the runner does build the message
"Execution timed out after 2 seconds", but `execute_code` discards the
runner's return: the returned result's error is
"Execution failed to produce results" — a different string — so the claim
that the ExecutionResult's error equals the timeout message is false. -/
theorem C1_counterexample :
    (execute_in_subprocess cfgTimeout2 envTimedOut.subproc).ret.error =
      some (timeoutMessage 2)
    ∧ (execute_code cfgTimeout2 envTimedOut "python").1 = Except.ok
        { output := none, error := some "Execution failed to produce results",
          visualizations := none, tables := none, execution_time := 1 }
    ∧ ("Execution failed to produce results" : String) ≠ timeoutMessage 2 :=
  ⟨rfl, rfl, by decide⟩

/-- Claim C1 amended: on a timeout the runner kills the process and
returns (internally) `output=""` and the configured timeout message; but
`execute_code` never reads that value and builds its result from the
result file, so when the killed wrapper left no result file the returned
ExecutionResult has `error = "Execution failed to produce results"` and
null output. -/
theorem C1_timeout_behaviour (cfg : Config) (env : ExecEnv)
    (h1 : env.makedirs_fails = none) (h2 : env.prepare_fails = none)
    (h3 : env.write_fails = none) (h4 : env.subproc.spawn_fails = none)
    (h5 : env.subproc.completes_in_time = false) (h6 : env.file_state = .absent) :
    (execute_in_subprocess cfg env.subproc).killed = true
    ∧ (execute_in_subprocess cfg env.subproc).ret =
        { output := "", error := some (timeoutMessage cfg.sandbox_timeout) }
    ∧ (execute_code cfg env "python").1 = Except.ok
        { output := none, error := some "Execution failed to produce results",
          visualizations := none, tables := none, execution_time := env.elapsed }
    ∧ (execute_code cfg env "python").2.process_killed = true := by
  refine ⟨?_, ?_, ?_, ?_⟩ <;>
    simp [execute_in_subprocess, execute_code, parse_results, h1, h2, h3, h4, h5, h6]

/-- Witness for C1's amended claim at the two-second configuration. -/
theorem C1_timeout_behaviour_witness :
    (execute_in_subprocess cfgTimeout2 envTimedOut.subproc).killed = true
    ∧ (execute_in_subprocess cfgTimeout2 envTimedOut.subproc).ret =
        { output := "", error := some (timeoutMessage 2) }
    ∧ (execute_code cfgTimeout2 envTimedOut "python").1 = Except.ok
        { output := none, error := some "Execution failed to produce results",
          visualizations := none, tables := none, execution_time := 1 }
    ∧ (execute_code cfgTimeout2 envTimedOut "python").2.process_killed = true :=
  C1_timeout_behaviour cfgTimeout2 envTimedOut rfl rfl rfl rfl rfl rfl

/-- A child that allocated far beyond the 4 GiB limit while running but
exited before the post-completion memory sample could observe it. -/
def spikeSubproc : SubprocBehavior :=
  { spawn_fails := none, completes_in_time := true, stdout := "done\n", stderr := "",
    peak_rss := 8 * 1024 * 1024 * 1024, sample := .gone_at_meminfo }

/-- Claim C3 counterexample: resident memory exceeded `max_memory` during
execution (peak 8 GiB against a 4 GiB limit), yet the runner never kills
the process and returns a normal result: the single memory sample happens
only after `communicate()` has returned, so a mid-run breach by a child
that then exits is never observed. -/
theorem C3_counterexample :
    defaultConfig.max_memory < spikeSubproc.peak_rss
    ∧ (execute_in_subprocess defaultConfig spikeSubproc).killed = false
    ∧ (execute_in_subprocess defaultConfig spikeSubproc).ret =
        { output := "done\n", error := none } :=
  ⟨by norm_num [defaultConfig, spikeSubproc], rfl, rfl⟩

/-- Claim C3 amended: memory is sampled once, after the child has
completed.  Only an rss breach visible at that sample kills the process,
and the MB-citing message appears only in the runner's return value,
which `execute_code` discards — the caller-facing result is built from
the result file.  A child gone at sampling time is not penalized:
`NoSuchProcess` from `memory_info()` is swallowed and the captured stdout
returned; `NoSuchProcess` from the `psutil.Process` lookup is caught by
the runner's outer handler and converted into an (equally discarded)
error return — nothing is raised and no kill happens. -/
theorem C3_memory_sampling_behaviour (cfg : Config) (b : SubprocBehavior)
    (h1 : b.spawn_fails = none) (h2 : b.completes_in_time = true) :
    (∀ n, b.sample = .rss n → cfg.max_memory < n →
        (execute_in_subprocess cfg b).killed = true
        ∧ (execute_in_subprocess cfg b).ret =
            { output := "", error := some (memoryMessage cfg.max_memory) })
    ∧ (b.sample = .gone_at_meminfo →
        (execute_in_subprocess cfg b).killed = false
        ∧ (execute_in_subprocess cfg b).ret.output = b.stdout)
    ∧ (∀ m, b.sample = .gone_at_lookup m →
        (execute_in_subprocess cfg b).killed = false
        ∧ (execute_in_subprocess cfg b).ret = { output := "", error := some m })
    ∧ (∀ env : ExecEnv, env.subproc = b → env.makedirs_fails = none →
        env.prepare_fails = none → env.write_fails = none →
        (execute_code cfg env "python").1 = Except.ok
          { output := (parse_results env.file_state).1,
            error := (parse_results env.file_state).2.1,
            visualizations := (parse_results env.file_state).2.2.1,
            tables := (parse_results env.file_state).2.2.2,
            execution_time := env.elapsed }) := by
  refine ⟨?_, ?_, ?_, ?_⟩
  · intro n hs hlt
    constructor <;> simp [execute_in_subprocess, h1, h2, hs, Nat.lt_iff_add_one_le, hlt,
      Nat.not_le.mpr hlt]
  · intro hs
    constructor <;> simp [execute_in_subprocess, h1, h2, hs]
  · intro m hs
    constructor <;> simp [execute_in_subprocess, h1, h2, hs]
  · intro env he hm hp hw
    simp [execute_code, hm, hp, hw]

/-- A child observed at 5 GiB resident memory by the post-completion
sample, against the default 4 GiB limit. -/
def heldSubproc : SubprocBehavior :=
  { spawn_fails := none, completes_in_time := true, stdout := "", stderr := "",
    peak_rss := 5 * 1024 * 1024 * 1024, sample := .rss (5 * 1024 * 1024 * 1024) }

/-- Witness for C3's amended claim: a breach still visible at the sample
kills the process and cites the 4096 MB limit in the runner's return. -/
theorem C3_memory_sampling_behaviour_witness :
    (execute_in_subprocess defaultConfig heldSubproc).killed = true
    ∧ (execute_in_subprocess defaultConfig heldSubproc).ret =
        { output := "", error := some (memoryMessage defaultConfig.max_memory) } :=
  (C3_memory_sampling_behaviour defaultConfig heldSubproc rfl rfl).1
    (5 * 1024 * 1024 * 1024) rfl (by norm_num [defaultConfig])

theorem append_ne_empty_of_right (s t : String) (h : t ≠ "") : s ++ t ≠ "" := by
  intro e
  have hd := congrArg String.data e
  rw [String.data_append] at hd
  have h2 := List.append_eq_nil.mp hd
  exact h (String.ext h2.2)

/-- User code that prints "hello", opens a matplotlib figure, then raises. -/
def envPrintsThenRaises : WrapperEnv :=
  { dataset_path := "data.csv", read_fails := none,
    user := { printed := "hello\n", err_printed := "",
              raises := some "Traceback: ZeroDivisionError",
              figures := [{ png_b64 := "iVBOR", width := 640, height := 480 }],
              plotly_figures := [], dataframes := [] },
    serialize_fails := none }

/-- Claim C6 counterexample: user code printed "hello", created a
matplotlib figure, then raised.  The record keeps the printed text and the
trace, but the open figure is NOT harvested — `visualizations = []` — so
the wrapper does not "proceed to harvesting" after a caught user-code
fault: the harvesting steps sit inside the same `try` block as the user
code and are skipped on an exception; only serialization proceeds. -/
theorem C6_counterexample :
    envPrintsThenRaises.user.figures ≠ []
    ∧ wrapperRun envPrintsThenRaises = some
        { output := "hello\n",
          error := some "Error executing code: Traceback: ZeroDivisionError\n",
          visualizations := [], tables := [] } :=
  ⟨by decide, rfl⟩

/-- Claim C6 amended: for user code that prints text and then raises, the
record preserves both — output is exactly the text printed before the
fault, error carries the fault's trace (appended to anything the user
wrote to stderr) — and the caught exception does not abort the wrapper,
which still proceeds to serialization; but the harvesting steps are
skipped, so visualizations and tables are empty regardless of any open
figures or dataframe locals. -/
theorem C6_fault_capture (env : WrapperEnv) (trace : String)
    (h1 : datasetLoadOutcome env.dataset_path env.read_fails = .ok)
    (h2 : env.user.raises = some trace)
    (h3 : env.serialize_fails = none) :
    wrapperRun env = some
      { output := env.user.printed,
        error := some (env.user.err_printed ++ "Error executing code: " ++ trace ++ "\n"),
        visualizations := [], tables := [] } := by
  have hne : env.user.err_printed ++ "Error executing code: " ++ trace ++ "\n" ≠ "" :=
    append_ne_empty_of_right _ "\n" (by decide)
  have hbe : (env.user.err_printed ++ "Error executing code: " ++ trace ++ "\n"
      == ("" : String)) = false := by
    rw [beq_eq_false_iff_ne]
    exact hne
  simp [wrapperRun, h1, userPhase, h2, h3, hbe]

/-- Witness for C6's amended claim: user stderr text and the trace are
concatenated, printed stdout is preserved, harvesting yields nothing. -/
theorem C6_fault_capture_witness :
    wrapperRun { envPrintsThenRaises with
                 user := { envPrintsThenRaises.user with err_printed := "warn\n" } } = some
      { output := "hello\n",
        error := some "warn\nError executing code: Traceback: ZeroDivisionError\n",
        visualizations := [], tables := [] } := by
  have h := C6_fault_capture
    { envPrintsThenRaises with
      user := { envPrintsThenRaises.user with err_printed := "warn\n" } }
    "Traceback: ZeroDivisionError" (by decide) rfl rfl
  simpa using h

/-- A second invocation in the same clock second whose code-object id is
congruent to `okEnv`'s modulo 10000 but different (a different code
string object). -/
def envSameTick : ExecEnv := { okEnv with code_id := 10005 }

/-- Claim C8 counterexample: two distinct invocations — different
`id(code)` values 5 and 10005 — within the same clock second receive the
SAME workspace directory name (the discriminator is only
`id(code) % 10000`), so acquisition is not collision-free and the two
invocations share a workspace (`os.makedirs(..., exist_ok=True)` does not
fail on the existing directory). -/
theorem C8_counterexample :
    okEnv.code_id ≠ envSameTick.code_id
    ∧ executionId okEnv.now okEnv.code_id = executionId envSameTick.now envSameTick.code_id
    ∧ (execute_code defaultConfig okEnv "python").2.workspace_created =
        (execute_code defaultConfig envSameTick "python").2.workspace_created :=
  ⟨by decide, rfl, rfl⟩

/-- Claim C8 amended: the workspace name is determined by the pair
(second-resolution timestamp, `id(code) % 10000`): two invocations obtain
the same directory name exactly when those pairs coincide.  Distinct
seconds or ids differing modulo 10000 therefore give distinct workspaces,
but concurrent invocations in the same second whose code ids are
congruent modulo 10000 share one, and creation does not detect the
collision. -/
theorem C8_workspace_name_discrimination (t c t' c' : Nat) :
    executionId t c = executionId t' c' ↔ t = t' ∧ c % 10000 = c' % 10000 := by
  constructor
  · exact executionId_inj t c t' c'
  · rintro ⟨rfl, h⟩
    simp [executionId, h]

/-- An invocation whose workspace deletion fails. -/
def envRmtreeFails : ExecEnv := { okEnv with rmtree_fails := some "Device or resource busy" }

/-- Claim C9 counterexample: when `shutil.rmtree` fails, the error is
swallowed and the returned result is identical to a successful-cleanup
run — but the workspace directory persists, so the sandbox root's set of
immediate children after the invocation differs from before: the
"children unchanged" post-condition does not hold unconditionally. -/
theorem C9_counterexample :
    (execute_code defaultConfig envRmtreeFails "python").1 =
        (execute_code defaultConfig okEnv "python").1
    ∧ childrenAfter ∅ (execute_code defaultConfig envRmtreeFails "python").2 ≠
        (∅ : Finset String) :=
  ⟨rfl, by decide⟩

/-- Claim C9 amended: for every supported-kind invocation whose workspace
was created, every exit path (normal, caught error) records the workspace
and attempts `shutil.rmtree`; a deletion failure is swallowed — it never
propagates and never alters the returned result — and the sandbox root's
immediate children are unchanged provided deletion succeeds and the name
was fresh; when deletion fails the directory persists. -/
theorem C9_cleanup_behaviour (cfg : Config) (env : ExecEnv) (before : Finset String)
    (h : env.makedirs_fails = none) :
    (execute_code cfg env "python").2.workspace_created =
        some (executionId env.now env.code_id)
    ∧ (execute_code cfg env "python").2.workspace_removed = env.rmtree_fails.isNone
    ∧ (∀ x : Option String,
        (execute_code cfg { env with rmtree_fails := x } "python").1 =
          (execute_code cfg env "python").1)
    ∧ (env.rmtree_fails = none →
        executionId env.now env.code_id ∉ before →
        childrenAfter before (execute_code cfg env "python").2 = before) := by
  refine ⟨?_, ?_, ?_, ?_⟩
  · cases hp : env.prepare_fails <;> cases hw : env.write_fails <;>
      simp [execute_code, h, hp, hw]
  · cases hp : env.prepare_fails <;> cases hw : env.write_fails <;>
      simp [execute_code, h, hp, hw]
  · intro x
    cases hp : env.prepare_fails <;> cases hw : env.write_fails <;>
      simp [execute_code, h, hp, hw]
  · intro hr hfresh
    have hc : (execute_code cfg env "python").2.workspace_created =
        some (executionId env.now env.code_id) := by
      cases hp : env.prepare_fails <;> cases hw : env.write_fails <;>
        simp [execute_code, h, hp, hw]
    have hrm : (execute_code cfg env "python").2.workspace_removed = true := by
      cases hp : env.prepare_fails <;> cases hw : env.write_fails <;>
        simp [execute_code, h, hp, hw, hr]
    rw [childrenAfter, hc, hrm]
    simp [Finset.erase_insert hfresh]

/-- Witness for C9's amended claim: a clean run leaves the (initially
empty) sandbox root unchanged. -/
theorem C9_cleanup_behaviour_witness :
    childrenAfter ∅ (execute_code defaultConfig okEnv "python").2 = ∅ :=
  (C9_cleanup_behaviour defaultConfig okEnv ∅ rfl).2.2.2 rfl (Finset.not_mem_empty _)

end Bioviz
